import Mathlib

/-!
Shallow embedding of `src/rabi_plan_processor.py` (the progress-metrics
pipeline): the per-row projection, coercion and progress calculation of
`generate_sheet2_data` (lines 27-121) and the JSON type coercion of
`convert_to_json` (lines 123-147).

Modelling conventions:
* A spreadsheet cell is a tagged value (`Cell`): missing (`pd.isna` true),
  a text cell, a numeric cell, or a date cell (a `pd.Timestamp` at
  midnight, represented by its proleptic-Gregorian ordinal day number as
  in Python's `date.toordinal`).
* Python floats are modelled as rationals (`Rat`); the arithmetic of the
  pipeline on its intended inputs is exact decimal arithmetic.
* `pd.Timestamp` subtraction and `Timedelta.days` become subtraction of
  ordinal day numbers (all parsed dates are midnight timestamps, and the
  `now` snapshot is passed as an ordinal day, so `.days` is exact).
* A raised exception is an `Except.error`; the shared `try/except` around
  the two `pd.to_datetime` calls (lines 62-67) is modelled by sequencing
  in `Except` and catching at the end, exactly as the Python block does.
-/

/-- One spreadsheet cell as pandas hands it to the row loop:
`na` is any null-equivalent (`NaN`/`NaT`/`None`, i.e. `pd.isna` true),
`str` a text cell, `num` a numeric cell, `date` a `pd.Timestamp` at
midnight given by its ordinal day number. -/
inductive Cell where
  | na
  | str (s : String)
  | num (q : Rat)
  | date (ord : Nat)
deriving DecidableEq, Repr

/-- `pd.isna` on a cell. -/
def Cell.isna : Cell → Bool
  | .na => true
  | _ => false

/-- Split a character list at every occurrence of `sep` (the separator is
dropped); the empty list yields one empty component, as Python's
`str.split` with an explicit separator does. -/
def splitOnChar (sep : Char) : List Char → List (List Char)
  | [] => [[]]
  | c :: cs =>
    match splitOnChar sep cs with
    | [] => if c = sep then [[], [c]] else [[c]]
    | h :: t => if c = sep then [] :: h :: t else (c :: h) :: t

/-- Parse a non-empty all-digit character list as a decimal number
(`int(s)` on a digit string; anything else fails). -/
def toNatL (cs : List Char) : Option Nat :=
  if cs.isEmpty then none
  else if cs.all Char.isDigit then
    some (cs.foldl (fun a c => 10 * a + (c.toNat - 48)) 0)
  else none

/-- Strip leading and trailing whitespace (`str.strip()`). -/
def trimL (cs : List Char) : List Char :=
  ((cs.dropWhile Char.isWhitespace).reverse.dropWhile Char.isWhitespace).reverse

/-- `str(1)` for the `z` in a leap year: Gregorian leap-year test. -/
def isLeap (y : Nat) : Bool := (y % 4 == 0 && y % 100 != 0) || y % 400 == 0

/-- Number of days in month `m` of year `y` (proleptic Gregorian). -/
def daysInMonth (y m : Nat) : Nat :=
  if m == 2 then (if isLeap y then 29 else 28)
  else if m == 4 || m == 6 || m == 9 || m == 11 then 30
  else 31

/-- Days strictly before January 1 of year `y` (year 1 is day 0),
proleptic Gregorian. -/
def daysBeforeYear (y : Nat) : Nat :=
  let n := y - 1
  365 * n + n / 4 - n / 100 + n / 400

/-- Days in year `y` strictly before the first of month `m`. -/
def daysBeforeMonth (y m : Nat) : Nat :=
  (List.range (m - 1)).foldl (fun a i => a + daysInMonth y (i + 1)) 0

/-- Ordinal day number of the civil date `y-m-d`, with `0001-01-01 = 1`
(Python's `date.toordinal` convention). -/
def toOrdinal (y m d : Nat) : Nat :=
  daysBeforeYear y + daysBeforeMonth y m + d

/-- Is `y-m-d` a real calendar date (as `pd.to_datetime` would accept)? -/
def validYMD (y m d : Nat) : Bool :=
  decide (1 ≤ y ∧ 1 ≤ m ∧ m ≤ 12 ∧ 1 ≤ d ∧ d ≤ daysInMonth y m)

/-- Embeds `pd.to_datetime(s, dayfirst=True)` on a slash-separated text
cell: three `/`-separated numeric components, read day-first
(`DD/MM/YYYY`); when the day-first reading is not a valid calendar date
pandas falls back to the month-first reading; anything else raises
(`none` here marks the raised exception). -/
def parseDayfirst (s : String) : Option Nat :=
  match splitOnChar '/' s.data with
  | [a, b, c] =>
    match toNatL a, toNatL b, toNatL c with
    | some x, some y, some z =>
      if validYMD z y x then some (toOrdinal z y x)
      else if validYMD z x y then some (toOrdinal z x y)
      else none
    | _, _, _ => none
  | _ => none

/-- Embeds one arm `pd.to_datetime(v, dayfirst=True) if not pd.isna(v)
else None` of lines 63-64: a missing cell is `None` without parsing; a
date cell is already a `Timestamp` and is returned as is; a text cell is
parsed day-first and raises (`Except.error`) when unparseable; a numeric
cell is read by pandas as an epoch offset in nanoseconds, which for any
realistic cell magnitude still lies on day `1970-01-01`. -/
def tryParseCell : Cell → Except Unit (Option Nat)
  | .na => .ok none
  | .date t => .ok (some t)
  | .num _ => .ok (some (toOrdinal 1970 1 1))
  | .str s =>
    match parseDayfirst s with
    | some t => .ok (some t)
    | none => .error ()

/-- Embeds the whole `try/except` block of lines 62-67: the start date is
parsed first, then the end date, inside ONE shared handler; any raised
exception lands in the `except` arm, which sets BOTH parsed dates to
`None`. -/
def parseDates (sd ed : Cell) : Option Nat × Option Nat :=
  match tryParseCell sd with
  | .error _ => (none, none)
  | .ok sp =>
    match tryParseCell ed with
    | .error _ => (none, none)
    | .ok ep => (sp, ep)

/-- The per-field date coercion the spec describes (§4.1): missing or
unparseable yields none for that field, independent of the other field.
Kept separate from `parseDates` so the two can be compared. -/
def specParseDate (c : Cell) : Option Nat :=
  match tryParseCell c with
  | .ok r => r
  | .error _ => none

/-- Embeds `str(s).replace(',', '')` for a text cell: every comma is
removed. -/
def stripCommas (cs : List Char) : List Char :=
  cs.filter (fun c => c ≠ ',')

/-- Embeds `pd.to_numeric(s, errors='coerce')` on a text string:
an optional sign, an integer part, an optional fractional part;
`none` is the coerced `NaN`. -/
def toNumeric (cs : List Char) : Option Rat :=
  let (neg, body) : Bool × List Char :=
    match cs with
    | '-' :: r => (true, r)
    | '+' :: r => (false, r)
    | r => (false, r)
  let signed : Rat → Rat := fun q => if neg then -q else q
  match splitOnChar '.' body with
  | [ip] => (toNatL ip).map (fun n => signed (n : Rat))
  | [ip, fp] =>
    match toNatL ip, toNatL fp with
    | some i, some f => some (signed ((i : Rat) + (f : Rat) / ((10 : Rat) ^ fp.length)))
    | _, _ => none
  | _ => none

/-- Embeds lines 53-59: `pd.to_numeric(str(v).replace(',', ''),
errors='coerce')`, with `NaN` (parse failure) defaulted to `0`.
`str` of a numeric cell re-parses to the same number; `str` of a missing
cell is `"nan"` whose coercion is `NaN`, hence `0`; `str` of a timestamp
cell does not parse as a number, hence `0`. -/
def coercePlots : Cell → Rat
  | .num q => q
  | .str s => (toNumeric (stripCommas s.data)).getD 0
  | _ => 0

/-- `str(v)` of a state cell as used on line 38 (`str(row['State'])`). -/
def Cell.pyStr : Cell → String
  | .na => "nan"
  | .str s => s
  | .num q => toString q
  | .date t => toString t

/-- Embeds the skip test of line 38:
`pd.isna(row['State']) or str(row['State']).strip() == ''`. -/
def skipState (c : Cell) : Bool :=
  c.isna || (trimL c.pyStr.data).isEmpty

/-- Round half-to-even to the nearest integer (the rounding of Python's
`round` and `%` formatting). -/
def roundHalfEven (q : Rat) : Int :=
  let f := ⌊q⌋
  let frac := q - (f : Rat)
  if frac < 1/2 then f
  else if (1:Rat)/2 < frac then f + 1
  else if f % 2 = 0 then f else f + 1

/-- Embeds `round(x, 1)`: round half-to-even at one decimal place. -/
def round1 (q : Rat) : Rat := (roundHalfEven (q * 10) : Rat) / 10

/-- Embeds the f-string conversion `{x:.1f}`: one decimal digit, rounded
half-to-even; a negative value that rounds to zero keeps its minus sign
(Python's signed float zero). -/
def formatFixed1 (q : Rat) : String :=
  let n := roundHalfEven (q * 10)
  let sign := if q < 0 then "-" else ""
  sign ++ toString (n.natAbs / 10) ++ "." ++ toString (n.natAbs % 10)

/-- The positive-indicator prefix of the gap label, exactly the
characters of the source literal on line 98 (glyph then a space). -/
def posGlyph : String := "âœ… "

/-- The negative-indicator prefix of the gap label, exactly the
characters of the source literal on line 100. -/
def negGlyph : String := "ðŸ”»"

/-- One input row restricted to the four columns the loop reads
(lines 48-51). -/
structure SourceRow where
  state : Cell
  plotsTargeted : Cell
  startDate : Cell
  endDate : Cell
deriving DecidableEq, Repr

/-- One output row: the dict built on lines 103-117, field names
mapped to Lean identifiers (`days` duplicates `Days Elapsed`;
`gap` is the `'Gap'` string label). -/
structure Sheet2Row where
  a : Cell
  b : Rat
  c : Rat
  d : Cell
  e : Cell
  days : Int
  totalDays : Int
  daysElapsed : Int
  requiredPerDay : Rat
  actualPerDay : Rat
  requiredPercent : Rat
  actualPercent : Rat
  gap : String
deriving DecidableEq, Repr

/-- Embeds lines 73-79: `total_days` and the clamped `days_elapsed`
(`max(0, min(days_elapsed, total_days))`) when both parsed dates are
present (`Timestamp` objects are always truthy), else `(0, 0)`. -/
def daysPair (now : Int) (row : SourceRow) : Int × Int :=
  match parseDates row.startDate row.endDate with
  | (some s, some e) =>
    let totalDays : Int := (e : Int) - (s : Int)
    let elapsed : Int := now - (s : Int)
    (totalDays, max 0 (min elapsed totalDays))
  | _ => (0, 0)

/-- The unrounded `required_per_day` of line 82. -/
def requiredPerDayRaw (now : Int) (row : SourceRow) : Rat :=
  let t := (daysPair now row).1
  if t > 0 then coercePlots row.plotsTargeted / (t : Rat) else 0

/-- The unrounded `actual_per_day` of line 85 (`total_plots_surveyed`
is the constant `0` of line 70). -/
def actualPerDayRaw (now : Int) (row : SourceRow) : Rat :=
  let d := (daysPair now row).2
  if d > 0 then 0 / (d : Rat) else 0

/-- The unrounded `required_percentage` of line 88. -/
def requiredPercentRaw (now : Int) (row : SourceRow) : Rat :=
  let t := (daysPair now row).1
  let d := (daysPair now row).2
  if t > 0 then (d : Rat) / (t : Rat) * 100 else 0

/-- The unrounded `actual_percentage` of line 91 (independent of `now`;
the argument keeps the calculator's uniform shape). -/
def actualPercentRaw (_now : Int) (row : SourceRow) : Rat :=
  let p := coercePlots row.plotsTargeted
  if p > 0 then 0 / p * 100 else 0

/-- The local `gap` of line 94: unrounded actual minus required. -/
def gapRaw (now : Int) (row : SourceRow) : Rat :=
  actualPercentRaw now row - requiredPercentRaw now row

/-- Embeds lines 96-100: the `'Gap'` label with glyph, sign and the gap
formatted to one decimal. -/
def gapLabel (now : Int) (row : SourceRow) : String :=
  let gap := gapRaw now row
  if gap ≥ 0 then posGlyph ++ "+" ++ formatFixed1 gap ++ "%"
  else negGlyph ++ formatFixed1 gap ++ "%"

/-- Embeds the body of one loop iteration after the skip test
(lines 48-117): coercions, progress calculation and the output dict.
Rounding to one decimal is applied exactly where lines 112-115 apply it. -/
def computeRow (now : Int) (row : SourceRow) : Sheet2Row :=
  let plots := coercePlots row.plotsTargeted
  let (totalDays, daysElapsed) := daysPair now row
  { a := row.state
    b := plots
    c := 0
    d := row.startDate
    e := row.endDate
    days := daysElapsed
    totalDays := totalDays
    daysElapsed := daysElapsed
    requiredPerDay := round1 (requiredPerDayRaw now row)
    actualPerDay := round1 (actualPerDayRaw now row)
    requiredPercent := round1 (requiredPercentRaw now row)
    actualPercent := round1 (actualPercentRaw now row)
    gap := gapLabel now row }

/-- One loop iteration of lines 36-119: `none` when the row is skipped
by the state test of line 38, otherwise the computed output row. -/
def processRow (now : Int) (row : SourceRow) : Option Sheet2Row :=
  if skipState row.state then none else some (computeRow now row)

/-- Embeds `generate_sheet2_data` restricted to its per-row work: the
loop of lines 36-119 over the input rows, with the single `now`
snapshot of line 34 passed in as an ordinal day number. -/
def generate_sheet2_data (now : Int) (rows : List SourceRow) : List Sheet2Row :=
  rows.filterMap (processRow now)

/-- A civil timestamp as `convert_to_json` meets it: date and
time-of-day components. -/
structure DateTime where
  year : Nat
  month : Nat
  day : Nat
  hour : Nat
  minute : Nat
  second : Nat
deriving DecidableEq, Repr

/-- Zero-pad to two digits. -/
def pad2 (n : Nat) : String :=
  if n < 10 then "0" ++ toString n else toString n

/-- Zero-pad to four digits. -/
def pad4 (n : Nat) : String :=
  if n < 10 then "000" ++ toString n
  else if n < 100 then "00" ++ toString n
  else if n < 1000 then "0" ++ toString n
  else toString n

/-- Embeds `obj.strftime('%Y-%m-%d %H:%M:%S')`. -/
def DateTime.strftime (t : DateTime) : String :=
  pad4 t.year ++ "-" ++ pad2 t.month ++ "-" ++ pad2 t.day ++ " " ++
    pad2 t.hour ++ ":" ++ pad2 t.minute ++ ":" ++ pad2 t.second

/-- One Python value as the `convert_types` closure dispatches on it:
`na` is any `pd.isna`-true value (`None`, float `NaN`, `NaT`), then a
`pd.Timestamp`, a Python `int`, a Python `float`, and any other value
through its `str` fallback. -/
inductive PyValue where
  | na
  | timestamp (t : DateTime)
  | int (n : Int)
  | float (q : Rat)
  | str (s : String)
deriving DecidableEq, Repr

/-- One JSON scalar as `json.dumps` receives it. -/
inductive JsonValue where
  | null
  | jint (n : Int)
  | jfloat (q : Rat)
  | jstr (s : String)
deriving DecidableEq, Repr

/-- Embeds the `convert_types` closure of lines 129-139, branch by
branch and in the source's order: the `pd.isna` test first (so a float
`NaN` becomes `null` before the `float` branch is reached), then the
`Timestamp`, `int` and `float` branches, then the `str(obj)` fallback. -/
def convert_types : PyValue → JsonValue
  | .na => .null
  | .timestamp t => .jstr t.strftime
  | .int n => .jint n
  | .float q => .jfloat q
  | .str s => .jstr s

/-- Embeds the per-row dict comprehension of line 144: every field of a
record goes through `convert_types`. -/
def convertRow (row : List (String × PyValue)) : List (String × JsonValue) :=
  row.map (fun kv => (kv.1, convert_types kv.2))

/-- The scenario row of spec §8: state `"Bihar"`, target `"1,200"`,
activity from `01/01/2026` to `31/01/2026`. -/
def biharRow : SourceRow :=
  ⟨.str "Bihar", .str "1,200", .str "01/01/2026", .str "31/01/2026"⟩

/-- The `now` snapshot of the §8 scenario, `2026-01-13`, as an ordinal
day. -/
def now13 : Int := (toOrdinal 2026 1 13 : Int)

/-- A row whose activity dates are reversed (end before start). -/
def revRow : SourceRow :=
  ⟨.str "Assam", .na, .str "31/01/2026", .str "01/01/2026"⟩

/-- A row with no parseable dates and an uncoercible target. -/
def blankRow : SourceRow :=
  ⟨.str "Goa", .str "abc", .na, .na⟩

/-- `roundHalfEven` fixes the integers. -/
theorem roundHalfEven_intCast (n : Int) : roundHalfEven ((n : Int) : Rat) = n := by
  simp only [roundHalfEven, Int.floor_intCast, sub_self]
  norm_num

/-- `round1` of a rational whose tenfold is the integer `n` is `n / 10`. -/
theorem round1_eq_of_cast (q : Rat) (n : Int) (h : q * 10 = (n : Rat)) :
    round1 q = (n : Rat) / 10 := by
  unfold round1
  rw [h, roundHalfEven_intCast]

/-- `round(0, 1) = 0`. -/
theorem round1_zero : round1 0 = 0 := by
  have h := round1_eq_of_cast 0 0 (by norm_num)
  simpa using h

/-- `formatFixed1` of a rational whose tenfold is the integer `n`,
written out digit by digit. -/
theorem formatFixed1_eq_of_cast (q : Rat) (n : Int) (h : q * 10 = (n : Rat)) :
    formatFixed1 q =
      (if q < 0 then "-" else "") ++ toString (n.natAbs / 10) ++ "." ++
        toString (n.natAbs % 10) := by
  unfold formatFixed1
  rw [h, roundHalfEven_intCast]

/-- The two computed day counts of an output row are the two components
of `daysPair`. -/
theorem computeRow_days (now : Int) (r : SourceRow) :
    (computeRow now r).totalDays = (daysPair now r).1 ∧
    (computeRow now r).daysElapsed = (daysPair now r).2 ∧
    (computeRow now r).days = (daysPair now r).2 := by
  rcases h : daysPair now r with ⟨t, d⟩
  simp [computeRow, h]

/-- The rate, percentage and label fields of an output row, in terms of
the unrounded quantities. -/
theorem computeRow_fields (now : Int) (r : SourceRow) :
    (computeRow now r).b = coercePlots r.plotsTargeted ∧
    (computeRow now r).requiredPerDay = round1 (requiredPerDayRaw now r) ∧
    (computeRow now r).actualPerDay = round1 (actualPerDayRaw now r) ∧
    (computeRow now r).requiredPercent = round1 (requiredPercentRaw now r) ∧
    (computeRow now r).actualPercent = round1 (actualPercentRaw now r) ∧
    (computeRow now r).gap = gapLabel now r := by
  rcases h : daysPair now r with ⟨t, d⟩
  simp [computeRow, h]

/-- C1: for every emitted record, whenever `totalDays > 0` the clamp of
line 76 keeps `daysElapsed` within `[0, totalDays]`; and whenever either
date is missing or unparsed, the `else` arm of lines 77-79 makes both
`totalDays` and `daysElapsed` zero. -/
theorem progress_day_invariant (now : Int) (r : SourceRow) :
    ((computeRow now r).totalDays > 0 →
      0 ≤ (computeRow now r).daysElapsed ∧
      (computeRow now r).daysElapsed ≤ (computeRow now r).totalDays) ∧
    ((parseDates r.startDate r.endDate).1 = none ∨
        (parseDates r.startDate r.endDate).2 = none →
      (computeRow now r).totalDays = 0 ∧ (computeRow now r).daysElapsed = 0) := by
  obtain ⟨ht, hd, -⟩ := computeRow_days now r
  rw [ht, hd]
  rcases hp : parseDates r.startDate r.endDate with ⟨sp, ep⟩
  simp only [daysPair, hp]
  rcases sp with _ | s <;> rcases ep with _ | e <;> simp
  omega

/-- C1 witness: on the §8 scenario row, `totalDays = 30 > 0` and the
invariant holds concretely. -/
theorem progress_day_invariant_witness :
    0 < (computeRow now13 biharRow).totalDays ∧
    0 ≤ (computeRow now13 biharRow).daysElapsed ∧
    (computeRow now13 biharRow).daysElapsed ≤ (computeRow now13 biharRow).totalDays :=
  ⟨by decide, ((progress_day_invariant now13 biharRow).1 (by decide)).1,
    ((progress_day_invariant now13 biharRow).1 (by decide)).2⟩

/-- C2: the division guards of lines 82-91: a zero `totalDays` forces
`requiredPerDay` and `requiredPercent` to 0, a zero `daysElapsed` forces
`actualPerDay` to 0, and a zero `plotsTargeted` (field `b`) forces
`actualPercent` to 0 — no division by zero is ever evaluated. -/
theorem division_guards (now : Int) (r : SourceRow) :
    ((computeRow now r).totalDays = 0 →
      (computeRow now r).requiredPerDay = 0 ∧ (computeRow now r).requiredPercent = 0) ∧
    ((computeRow now r).daysElapsed = 0 → (computeRow now r).actualPerDay = 0) ∧
    ((computeRow now r).b = 0 → (computeRow now r).actualPercent = 0) := by
  obtain ⟨ht, hd, -⟩ := computeRow_days now r
  obtain ⟨hb, hrpd, hapd, hrpc, hapc, -⟩ := computeRow_fields now r
  refine ⟨fun h0 => ⟨?_, ?_⟩, fun h0 => ?_, fun _ => ?_⟩
  · have h1 : (daysPair now r).1 = 0 := by rw [← ht]; exact h0
    rw [hrpd]
    simp only [requiredPerDayRaw, h1]
    simpa using round1_zero
  · have h1 : (daysPair now r).1 = 0 := by rw [← ht]; exact h0
    rw [hrpc]
    simp only [requiredPercentRaw, h1]
    simpa using round1_zero
  · have h2 : (daysPair now r).2 = 0 := by rw [← hd]; exact h0
    rw [hapd]
    simp only [actualPerDayRaw, h2]
    simpa using round1_zero
  · rw [hapc]
    simp only [actualPercentRaw, zero_div, zero_mul, ite_self]
    exact round1_zero

/-- C2 witness: a row with no dates and an uncoercible target has
`totalDays = daysElapsed = 0` and `b = 0`, and all four guarded fields
are zero. -/
theorem division_guards_witness :
    (computeRow 0 blankRow).requiredPerDay = 0 ∧
    (computeRow 0 blankRow).requiredPercent = 0 ∧
    (computeRow 0 blankRow).actualPerDay = 0 ∧
    (computeRow 0 blankRow).actualPercent = 0 :=
  ⟨((division_guards 0 blankRow).1 (by decide)).1,
    ((division_guards 0 blankRow).1 (by decide)).2,
    (division_guards 0 blankRow).2.1 (by decide),
    (division_guards 0 blankRow).2.2 (by decide)⟩

/-- C10: the clamp `max(0, min(elapsed, totalDays))` of line 76 keeps
`daysElapsed` nonnegative unconditionally, and pairs every negative
`totalDays` with `daysElapsed = 0`. -/
theorem days_elapsed_clamp (now : Int) (r : SourceRow) :
    0 ≤ (computeRow now r).daysElapsed ∧
    ((computeRow now r).totalDays < 0 → (computeRow now r).daysElapsed = 0) := by
  obtain ⟨ht, hd, -⟩ := computeRow_days now r
  rw [ht, hd]
  rcases hp : parseDates r.startDate r.endDate with ⟨sp, ep⟩
  simp only [daysPair, hp]
  rcases sp with _ | s <;> rcases ep with _ | e <;> simp
  omega

/-- C10 witness: a row with reversed dates has `totalDays = -30 < 0` and
`daysElapsed = 0`. -/
theorem days_elapsed_clamp_witness :
    (computeRow 0 revRow).totalDays < 0 ∧ (computeRow 0 revRow).daysElapsed = 0 :=
  ⟨by decide, (days_elapsed_clamp 0 revRow).2 (by decide)⟩

/-- C9: when both dates parse, `totalDays` is the plain day difference
`end − start` with no ordering validation, stored in the output record
unmodified (negative values pass through). -/
theorem total_days_passthrough (now : Int) (r : SourceRow) (s e : Nat)
    (h : parseDates r.startDate r.endDate = (some s, some e)) :
    (computeRow now r).totalDays = (e : Int) - (s : Int) := by
  obtain ⟨ht, -, -⟩ := computeRow_days now r
  rw [ht]
  simp [daysPair, h]

/-- C9 witness: the reversed row (start `31/01/2026`, end `01/01/2026`)
parses to both dates and yields `totalDays = -30` in the output. -/
theorem total_days_passthrough_witness :
    (computeRow 0 revRow).totalDays = -30 := by
  have h := total_days_passthrough 0 revRow (toOrdinal 2026 1 31) (toOrdinal 2026 1 1)
    (by decide)
  rw [h]; decide

/-- C5: a row is skipped exactly when its state cell is absent (`NaN`)
or its text form strips to the empty string, the skip is a silent
`continue` (the total function `processRow` returns `none`), and the
output of the loop never has more rows than the input. -/
theorem skip_policy (now : Int) (r : SourceRow) (rows : List SourceRow) :
    (processRow now r = none ↔
      (r.state = Cell.na ∨ trimL r.state.pyStr.data = [])) ∧
    (generate_sheet2_data now rows).length ≤ rows.length := by
  constructor
  · have hite : ∀ (b : Bool) (x : Sheet2Row),
        ((if b then none else some x) = (none : Option Sheet2Row)) ↔ b = true := by
      intro b x; cases b <;> simp
    unfold processRow
    rw [hite]
    unfold skipState
    rcases r.state with _ | s | q | t <;>
      simp [Cell.isna, Cell.pyStr, List.isEmpty_iff]
  · exact List.length_filterMap_le _ _

/-- C5 witness: a row with a missing state is excluded. -/
theorem skip_policy_witness :
    processRow 0 ⟨Cell.na, Cell.na, Cell.na, Cell.na⟩ = none :=
  (skip_policy 0 ⟨Cell.na, Cell.na, Cell.na, Cell.na⟩ []).1.mpr (Or.inl rfl)

/-- C4 counterexample: the two date fields are NOT parsed independently.
On the row with start `"01/01/2026"` and end `"abc"`, the parse
exception raised for the end date lands in the shared `except` arm of
lines 65-67, which discards the already-parsed start date: the pair is
`(none, none)` where independent per-field coercion would keep
`some` for the start date. -/
theorem date_independence_cex :
    ¬ (parseDates (Cell.str "01/01/2026") (Cell.str "abc") =
        (specParseDate (Cell.str "01/01/2026"), specParseDate (Cell.str "abc"))) := by
  decide

/-- C4 (amended): each date field is coerced day-first, and a MISSING
value in one field yields none for that field only, without touching the
other; but an UNPARSEABLE value in either field raises into the shared
handler of lines 62-67, which sets BOTH parsed dates to none; in every
case no error propagates and the row is not dropped. -/
theorem date_parse_coupling :
    (∀ ed, parseDates Cell.na ed = (none, specParseDate ed)) ∧
    (∀ sd, parseDates sd Cell.na = (specParseDate sd, none)) ∧
    (∀ sd ed, tryParseCell sd = .error () → parseDates sd ed = (none, none)) ∧
    (∀ sd ed, tryParseCell ed = .error () → parseDates sd ed = (none, none)) ∧
    (∀ sd ed sp ep, tryParseCell sd = .ok sp → tryParseCell ed = .ok ep →
      parseDates sd ed = (sp, ep)) ∧
    parseDayfirst "05/03/2026" = some (toOrdinal 2026 3 5) ∧
    (∀ now r, skipState r.state = false →
      generate_sheet2_data now [r] = [computeRow now r]) := by
  refine ⟨?_, ?_, ?_, ?_, ?_, by decide, ?_⟩
  · intro ed
    have hna : tryParseCell Cell.na = .ok none := rfl
    cases h : tryParseCell ed <;> simp [parseDates, specParseDate, hna, h]
  · intro sd
    have hna : tryParseCell Cell.na = .ok none := rfl
    cases h : tryParseCell sd <;> simp [parseDates, specParseDate, hna, h]
  · intro sd ed h
    simp [parseDates, h]
  · intro sd ed h
    cases h2 : tryParseCell sd <;> simp [parseDates, h, h2]
  · intro sd ed sp ep h1 h2
    simp [parseDates, h1, h2]
  · intro now r h
    simp [generate_sheet2_data, processRow, h]

/-- C4 witness: the unparseable end date `"abc"` raises, and the row
with a parseable start date still comes out with both dates none. -/
theorem date_parse_coupling_witness :
    tryParseCell (Cell.str "abc") = .error () ∧
    parseDates (Cell.str "01/01/2026") (Cell.str "abc") = (none, none) :=
  ⟨rfl,
    date_parse_coupling.2.2.2.1 (Cell.str "01/01/2026") (Cell.str "abc") rfl⟩

/-- C6: the target count is coerced by stripping comma separators and
parsing (`"1,200"` gives `1200`); a failed parse (`"abc"`) or a missing
cell gives `0`; and a row whose target fails to parse is still emitted,
with `b = 0` and a guarded `actualPercent = 0`. -/
theorem target_coercion (now : Int) (st sd ed : Cell) (s : String) :
    coercePlots (Cell.str s) = (toNumeric (stripCommas s.data)).getD 0 ∧
    coercePlots (Cell.str "1,200") = 1200 ∧
    coercePlots (Cell.str "abc") = 0 ∧
    coercePlots Cell.na = 0 ∧
    (skipState st = false →
      processRow now ⟨st, Cell.str "abc", sd, ed⟩ =
        some (computeRow now ⟨st, Cell.str "abc", sd, ed⟩) ∧
      (computeRow now ⟨st, Cell.str "abc", sd, ed⟩).b = 0 ∧
      (computeRow now ⟨st, Cell.str "abc", sd, ed⟩).actualPercent = 0) := by
  refine ⟨rfl, by decide, by decide, rfl, fun h => ⟨?_, ?_, ?_⟩⟩
  · simp [processRow, h]
  · obtain ⟨hb, -⟩ := computeRow_fields now ⟨st, Cell.str "abc", sd, ed⟩
    rw [hb]
    show coercePlots (Cell.str "abc") = 0
    decide
  · obtain ⟨-, -, -, -, hapc, -⟩ := computeRow_fields now ⟨st, Cell.str "abc", sd, ed⟩
    rw [hapc]
    simp only [actualPercentRaw, zero_div, zero_mul, ite_self]
    exact round1_zero

/-- C6 witness: with the kept state `"Goa"` the row with target `"abc"`
is emitted and carries `b = 0`. -/
theorem target_coercion_witness :
    skipState (Cell.str "Goa") = false ∧
    (computeRow 0 ⟨Cell.str "Goa", Cell.str "abc", Cell.na, Cell.na⟩).b = 0 :=
  ⟨by decide,
    ((target_coercion 0 (Cell.str "Goa") Cell.na Cell.na "x").2.2.2.2 (by decide)).2.1⟩

/-- C3: the serializer's per-field coercion, in the dispatch order of
lines 130-139: null-equivalents to JSON null first (so a float `NaN`
never reaches the float branch), timestamps to the
`"YYYY-MM-DD HH:MM:SS"` string, Python ints to JSON integers, Python
floats to JSON floating numbers, anything else to its fallback string;
and the row serializer applies this to every field. -/
theorem convert_types_rules :
    convert_types PyValue.na = JsonValue.null ∧
    (∀ t : DateTime, convert_types (PyValue.timestamp t) =
      JsonValue.jstr (pad4 t.year ++ "-" ++ pad2 t.month ++ "-" ++ pad2 t.day ++ " " ++
        pad2 t.hour ++ ":" ++ pad2 t.minute ++ ":" ++ pad2 t.second)) ∧
    (∀ n : Int, convert_types (PyValue.int n) = JsonValue.jint n) ∧
    (∀ q : Rat, convert_types (PyValue.float q) = JsonValue.jfloat q) ∧
    (∀ s : String, convert_types (PyValue.str s) = JsonValue.jstr s) ∧
    (∀ row, convertRow row = row.map (fun kv => (kv.1, convert_types kv.2))) :=
  ⟨rfl, fun _ => rfl, fun _ => rfl, fun _ => rfl, fun _ => rfl, fun _ => rfl⟩

/-- C8: the gap is the difference of the UNROUNDED percentages; the
label carries the positive glyph and an explicit `+` when the gap is
nonnegative and the negative glyph otherwise, with the gap rounded to
one decimal only inside the label; and the four stored rate/percent
fields are the one-decimal roundings of their unrounded values. -/
theorem gap_definition_and_rounding (now : Int) (r : SourceRow) :
    gapRaw now r = actualPercentRaw now r - requiredPercentRaw now r ∧
    (computeRow now r).gap =
      (if gapRaw now r ≥ 0 then posGlyph ++ "+" ++ formatFixed1 (gapRaw now r) ++ "%"
       else negGlyph ++ formatFixed1 (gapRaw now r) ++ "%") ∧
    (computeRow now r).requiredPerDay = round1 (requiredPerDayRaw now r) ∧
    (computeRow now r).actualPerDay = round1 (actualPerDayRaw now r) ∧
    (computeRow now r).requiredPercent = round1 (requiredPercentRaw now r) ∧
    (computeRow now r).actualPercent = round1 (actualPercentRaw now r) := by
  obtain ⟨-, h2, h3, h4, h5, h6⟩ := computeRow_fields now r
  exact ⟨rfl, by rw [h6]; rfl, h2, h3, h4, h5⟩

/-- C7: the §8 scenario: the row `{State "Bihar", Targeted "1,200",
Start "01/01/2026", End "31/01/2026"}` evaluated at `now = 2026-01-13`
yields `totalDays = 30`, `daysElapsed = 12`, `requiredPerDay = 40.0`,
`requiredPercent = 40.0`, `actualPercent = 0.0`, `gap = -40.0` and the
negative-glyph label `"-40.0%"`. -/
theorem bihar_scenario :
    (computeRow now13 biharRow).totalDays = 30 ∧
    (computeRow now13 biharRow).daysElapsed = 12 ∧
    (computeRow now13 biharRow).requiredPerDay = 40 ∧
    (computeRow now13 biharRow).requiredPercent = 40 ∧
    (computeRow now13 biharRow).actualPercent = 0 ∧
    gapRaw now13 biharRow = -40 ∧
    (computeRow now13 biharRow).gap = negGlyph ++ "-40.0%" := by
  have hplots : coercePlots biharRow.plotsTargeted = 1200 := by decide
  have hdp : daysPair now13 biharRow = (30, 12) := by decide
  have hreqraw : requiredPerDayRaw now13 biharRow = 40 := by
    simp only [requiredPerDayRaw, hdp, hplots]
    norm_num
  have hreqpct : requiredPercentRaw now13 biharRow = 40 := by
    simp only [requiredPercentRaw, hdp]
    norm_num
  have hact : actualPercentRaw now13 biharRow = 0 := by
    simp [actualPercentRaw]
  have hgap : gapRaw now13 biharRow = -40 := by
    rw [gapRaw, hact, hreqpct]
    norm_num
  obtain ⟨-, hrpd, -, hrpc, hapc, hglab⟩ := computeRow_fields now13 biharRow
  refine ⟨by decide, by decide, ?_, ?_, ?_, hgap, ?_⟩
  · rw [hrpd, hreqraw, round1_eq_of_cast 40 400 (by norm_num)]
    norm_num
  · rw [hrpc, hreqpct, round1_eq_of_cast 40 400 (by norm_num)]
    norm_num
  · rw [hapc, hact, round1_zero]
  · rw [hglab]
    simp only [gapLabel, hgap]
    rw [if_neg (by norm_num), formatFixed1_eq_of_cast (-40) (-400) (by norm_num),
      if_pos (by norm_num)]
    decide
